import Mathlib

/-!
Verification of the native OpenGL ES debug-logging bridge
(`core/camera/src/main/cpp/opengl_debug_jni.cpp`).

The C++ translation unit contains a single JNI entry point that installs a
fixed GL debug callback and enables GL debug output, and the callback itself,
which writes error-typed debug messages to the Android log.  We give a shallow
embedding: GL enumerants become `Nat` constants, the process state (debug
callback slot, debug-output enable flag, extension support, remaining GL
state, program variables, the managed exception channel, the sequence of GL
API calls issued, and the Android log sink) becomes an explicit record, and
the two C functions become state transformers over it.
-/

namespace OpenGLDebug

/-- Enumerant `GL_DEBUG_TYPE_ERROR_KHR` from `GLES2/gl2ext.h`. -/
def GL_DEBUG_TYPE_ERROR_KHR : Nat := 0x824C

/-- Enumerant `GL_DEBUG_TYPE_DEPRECATED_BEHAVIOR_KHR` from `GLES2/gl2ext.h`. -/
def GL_DEBUG_TYPE_DEPRECATED_BEHAVIOR_KHR : Nat := 0x824D

/-- Enumerant `GL_DEBUG_TYPE_PORTABILITY_KHR` from `GLES2/gl2ext.h`. -/
def GL_DEBUG_TYPE_PORTABILITY_KHR : Nat := 0x824F

/-- Enumerant `GL_DEBUG_TYPE_PERFORMANCE_KHR` from `GLES2/gl2ext.h`. -/
def GL_DEBUG_TYPE_PERFORMANCE_KHR : Nat := 0x8250

/-- Enumerant `GL_DEBUG_TYPE_OTHER_KHR` from `GLES2/gl2ext.h`. -/
def GL_DEBUG_TYPE_OTHER_KHR : Nat := 0x8251

/-- Enumerant `GL_DEBUG_TYPE_MARKER_KHR` from `GLES2/gl2ext.h`. -/
def GL_DEBUG_TYPE_MARKER_KHR : Nat := 0x8268

/-- Enumerant `GL_DEBUG_OUTPUT_KHR` from `GLES2/gl2ext.h`. -/
def GL_DEBUG_OUTPUT_KHR : Nat := 0x92E0

/-- Android log priority `ANDROID_LOG_ERROR` from `android/log.h`. -/
def ANDROID_LOG_ERROR : Nat := 6

/-- The constant `LOG_TAG` of the anonymous namespace. -/
def LOG_TAG : String := "OpenGLDebugLib"

/-- One entry of the Android log sink, as produced by `__android_log_print`:
a priority, a tag, and the formatted text. -/
structure LogEntry where
  priority : Nat
  tag : String
  text : String
deriving DecidableEq

/-- Function pointers that this translation unit can place in the GL debug
callback slot.  The only callback defined by the code is `gl_debug_cb`. -/
inductive CallbackPtr
  | gl_debug_cb
deriving DecidableEq

/-- A native pointer value, as passed for the `userParam` argument. -/
inductive Ptr
  | null
  | addr (n : Nat)
deriving DecidableEq

/-- Contents of the GL debug callback slot: the registered function pointer
together with the user-data pointer given at registration. -/
structure Registered where
  callback : CallbackPtr
  userParam : Ptr
deriving DecidableEq

/-- One GL API call issued by the native code, recorded in order. -/
inductive GLCall
  | debugMessageCallbackKHR (cb : CallbackPtr) (userParam : Ptr)
  | enable (cap : Nat)
deriving DecidableEq

/-- The modeled process state: the GL debug-callback slot and debug-output
enable flag, whether the current context supports the KHR_debug extension,
the remaining GL state and the program-visible variables (opaque), the
managed caller's pending-exception channel, the trace of GL API calls this
code has issued, and the Android log sink. -/
structure ProgState where
  debugCallbackSlot : Option Registered
  debugOutputEnabled : Bool
  debugExtSupported : Bool
  otherGLState : Nat
  programVars : Nat
  pendingException : Option String
  glCallTrace : List GLCall
  log : List LogEntry
deriving DecidableEq

/-- The log entries emitted by one invocation of `gl_debug_cb`: when `type`
is `GL_DEBUG_TYPE_ERROR_KHR` it calls `__android_log_print(ANDROID_LOG_ERROR,
LOG_TAG, "GL ERROR:\n %s.", message)`, producing one entry whose text is the
format string with the message substituted; otherwise it does nothing. -/
def gl_debug_cb (source type i severity length : Nat) (message : String)
    (userParam : Ptr) : List LogEntry :=
  if type = GL_DEBUG_TYPE_ERROR_KHR then
    [⟨ANDROID_LOG_ERROR, LOG_TAG, "GL ERROR:\n " ++ message ++ "."⟩]
  else
    []

/-- The driver call `glDebugMessageCallbackKHR(cb, userParam)`: the call is
issued unconditionally; on a context with KHR_debug support it stores the
pair in the debug-callback slot (overwriting any previous registration), and
on a context without support it is a silent no-op. -/
def glDebugMessageCallbackKHR (s : ProgState) (cb : CallbackPtr) (userParam : Ptr) :
    ProgState :=
  let s1 := { s with glCallTrace := s.glCallTrace ++ [.debugMessageCallbackKHR cb userParam] }
  if s.debugExtSupported then
    { s1 with debugCallbackSlot := some ⟨cb, userParam⟩ }
  else
    s1

/-- The driver call `glEnable(cap)`: the call is issued unconditionally; on a
context with KHR_debug support, enabling `GL_DEBUG_OUTPUT_KHR` sets the
debug-output flag, and on a context without support the enumerant is unknown
and the call changes nothing. -/
def glEnable (s : ProgState) (cap : Nat) : ProgState :=
  let s1 := { s with glCallTrace := s.glCallTrace ++ [.enable cap] }
  if s.debugExtSupported ∧ cap = GL_DEBUG_OUTPUT_KHR then
    { s1 with debugOutputEnabled := true }
  else
    s1

/-- The JNI entry point
`Java_com_google_jetpackcamera_core_camera_effects_GLDebug_enableES3DebugErrorLogging`:
it calls `glDebugMessageCallbackKHR(gl_debug_cb, nullptr)` and then
`glEnable(GL_DEBUG_OUTPUT_KHR)`, and returns void. -/
def Java_com_google_jetpackcamera_core_camera_effects_GLDebug_enableES3DebugErrorLogging
    (s : ProgState) : ProgState :=
  glEnable (glDebugMessageCallbackKHR s .gl_debug_cb .null) GL_DEBUG_OUTPUT_KHR

/-- Short name for the JNI entry point. -/
abbrev enableES3DebugErrorLogging : ProgState → ProgState :=
  Java_com_google_jetpackcamera_core_camera_effects_GLDebug_enableES3DebugErrorLogging

/-- The driver delivers a debug message: when debug output is enabled and a
callback is registered, the driver invokes the registered callback (here
always `gl_debug_cb`) with the message data and the registered user-data
pointer, appending the callback's output to the log sink; otherwise nothing
happens. -/
def deliverMessage (s : ProgState) (source type i severity length : Nat)
    (message : String) : ProgState :=
  if s.debugOutputEnabled then
    match s.debugCallbackSlot with
    | some reg =>
        { s with log := s.log ++
            gl_debug_cb source type i severity length message reg.userParam }
    | none => s
  else
    s

/-- An externally observable operation: either the managed caller invokes the
entry point, or the GL driver raises a debug message. -/
inductive Op
  | install
  | driverMessage (source type i severity length : Nat) (message : String)
deriving DecidableEq

/-- One step of the system. -/
def step (s : ProgState) : Op → ProgState
  | .install => enableES3DebugErrorLogging s
  | .driverMessage source type i severity length message =>
      deliverMessage s source type i severity length message

/-- Running a sequence of operations. -/
def run (s : ProgState) (ops : List Op) : ProgState :=
  ops.foldl step s

/-- A fresh state on a context with KHR_debug support: no callback
registered, debug output disabled, no pending exception, empty trace and
empty log. -/
def initState : ProgState :=
  { debugCallbackSlot := none
    debugOutputEnabled := false
    debugExtSupported := true
    otherGLState := 0
    programVars := 0
    pendingException := none
    glCallTrace := []
    log := [] }

/-- Number of callback-registration calls in a GL call trace. -/
def countRegistrations : List GLCall → Nat
  | [] => 0
  | .debugMessageCallbackKHR _ _ :: rest => countRegistrations rest + 1
  | .enable _ :: rest => countRegistrations rest

theorem countRegistrations_append (l1 l2 : List GLCall) :
    countRegistrations (l1 ++ l2) = countRegistrations l1 + countRegistrations l2 := by
  induction l1 with
  | nil => simp [countRegistrations]
  | cons c rest ih =>
      cases c <;> simp [countRegistrations, ih] <;> omega

/-- C1: on every invocation of the registered callback, the emitted entries
are exactly the per-invocation output of `gl_debug_cb`, appended to the log
with no batching, rate-limiting or deduplication; that output is exactly one
entry carrying the original message text under the fixed tag when the type is
`GL_DEBUG_TYPE_ERROR_KHR`, and no entry for any other type. -/
theorem filter_correctness (s : ProgState) (reg : Registered)
    (source type i severity length : Nat) (message : String)
    (henabled : s.debugOutputEnabled = true)
    (hslot : s.debugCallbackSlot = some reg) :
    (deliverMessage s source type i severity length message).log
      = s.log ++ gl_debug_cb source type i severity length message reg.userParam
    ∧ (type = GL_DEBUG_TYPE_ERROR_KHR →
        gl_debug_cb source type i severity length message reg.userParam
          = [⟨ANDROID_LOG_ERROR, LOG_TAG, "GL ERROR:\n " ++ message ++ "."⟩])
    ∧ (type ≠ GL_DEBUG_TYPE_ERROR_KHR →
        gl_debug_cb source type i severity length message reg.userParam = []) := by
  refine ⟨?_, ?_, ?_⟩
  · simp [deliverMessage, henabled, hslot]
  · intro h; simp [gl_debug_cb, h]
  · intro h; simp [gl_debug_cb, h]

/-- Witness for C1 at concrete inputs: an error-typed message appends exactly
one tagged entry, a performance-typed message appends none. -/
theorem filter_correctness_witness :
    (deliverMessage (enableES3DebugErrorLogging initState)
        0 GL_DEBUG_TYPE_ERROR_KHR 1 2 3 "boom").log
      = [] ++ gl_debug_cb 0 GL_DEBUG_TYPE_ERROR_KHR 1 2 3 "boom" .null
    ∧ gl_debug_cb 0 GL_DEBUG_TYPE_ERROR_KHR 1 2 3 "boom" .null
      = [⟨ANDROID_LOG_ERROR, LOG_TAG, "GL ERROR:\n " ++ "boom" ++ "."⟩]
    ∧ gl_debug_cb 0 GL_DEBUG_TYPE_PERFORMANCE_KHR 1 2 3 "boom" .null = [] := by
  have h1 := filter_correctness (enableES3DebugErrorLogging initState)
    ⟨.gl_debug_cb, .null⟩ 0 GL_DEBUG_TYPE_ERROR_KHR 1 2 3 "boom" (by decide) (by decide)
  have h2 := filter_correctness (enableES3DebugErrorLogging initState)
    ⟨.gl_debug_cb, .null⟩ 0 GL_DEBUG_TYPE_PERFORMANCE_KHR 1 2 3 "boom" (by decide) (by decide)
  exact ⟨h1.1, h1.2.1 rfl, h2.2.2 (by decide)⟩

/-- C2: after the entry point has been invoked on a fresh supported context,
a driver message of type error with text "Shader compile failed" leaves the
log sink holding exactly one error-priority entry tagged "OpenGLDebugLib"
with text "GL ERROR:\n Shader compile failed.". -/
theorem scenario_shader_compile_failed :
    (run initState
        [.install,
         .driverMessage 0 GL_DEBUG_TYPE_ERROR_KHR 0 0 0 "Shader compile failed"]).log
      = [⟨ANDROID_LOG_ERROR, "OpenGLDebugLib", "GL ERROR:\n Shader compile failed."⟩] := by
  decide

/-- C3: every invocation of the entry point issues exactly the registration
call (fixed callback, null user data) followed by the enable call for
`GL_DEBUG_OUTPUT_KHR`, in that order, and surfaces no status to the caller:
the pending-exception channel and the log are untouched. -/
theorem entry_point_steps (s : ProgState) :
    (enableES3DebugErrorLogging s).glCallTrace
      = s.glCallTrace
        ++ [.debugMessageCallbackKHR .gl_debug_cb .null, .enable GL_DEBUG_OUTPUT_KHR]
    ∧ (enableES3DebugErrorLogging s).pendingException = s.pendingException
    ∧ (enableES3DebugErrorLogging s).log = s.log := by
  by_cases h : s.debugExtSupported <;>
    simp [enableES3DebugErrorLogging,
      Java_com_google_jetpackcamera_core_camera_effects_GLDebug_enableES3DebugErrorLogging,
      glEnable, glDebugMessageCallbackKHR, h]

/-- Helper: the entry point never touches the log sink. -/
theorem install_log_eq (s : ProgState) : (enableES3DebugErrorLogging s).log = s.log := by
  by_cases h : s.debugExtSupported <;>
    simp [enableES3DebugErrorLogging,
      Java_com_google_jetpackcamera_core_camera_effects_GLDebug_enableES3DebugErrorLogging,
      glEnable, glDebugMessageCallbackKHR, h]

/-- C4 counterexample: on a fresh supported context the entry point flips the
debug-output enable flag, which is GL state outside the debug-callback slot,
so the invocation does mutate state beyond the callback slot and the log. -/
theorem frame_entry_point_counterexample :
    ¬ ((enableES3DebugErrorLogging initState).debugOutputEnabled
        = initState.debugOutputEnabled) := by
  decide

/-- C4 (amended): invoking the entry point mutates nothing observable outside
the GL debug-callback slot, the GL debug-output enable flag, and the log sink
(which it in fact leaves unchanged): the remaining GL state, the
program-visible variables, the extension-support status, the exception
channel and the log are all preserved. -/
theorem frame_entry_point (s : ProgState) :
    (enableES3DebugErrorLogging s).otherGLState = s.otherGLState
    ∧ (enableES3DebugErrorLogging s).programVars = s.programVars
    ∧ (enableES3DebugErrorLogging s).debugExtSupported = s.debugExtSupported
    ∧ (enableES3DebugErrorLogging s).pendingException = s.pendingException
    ∧ (enableES3DebugErrorLogging s).log = s.log := by
  by_cases h : s.debugExtSupported <;>
    simp [enableES3DebugErrorLogging,
      Java_com_google_jetpackcamera_core_camera_effects_GLDebug_enableES3DebugErrorLogging,
      glEnable, glDebugMessageCallbackKHR, h]

/-- C5: invoking the entry point twice issues the registration call twice
(the slot semantics of `glDebugMessageCallbackKHR` make the last registration
win), leaves the debug-callback slot and the enable flag exactly as a single
invocation does, and raises no exception. -/
theorem install_idempotent (s : ProgState) :
    (enableES3DebugErrorLogging (enableES3DebugErrorLogging s)).debugCallbackSlot
      = (enableES3DebugErrorLogging s).debugCallbackSlot
    ∧ (enableES3DebugErrorLogging (enableES3DebugErrorLogging s)).debugOutputEnabled
      = (enableES3DebugErrorLogging s).debugOutputEnabled
    ∧ countRegistrations
        (enableES3DebugErrorLogging (enableES3DebugErrorLogging s)).glCallTrace
      = countRegistrations s.glCallTrace + 2
    ∧ (enableES3DebugErrorLogging (enableES3DebugErrorLogging s)).pendingException
      = s.pendingException := by
  by_cases h : s.debugExtSupported <;>
    simp [enableES3DebugErrorLogging,
      Java_com_google_jetpackcamera_core_camera_effects_GLDebug_enableES3DebugErrorLogging,
      glEnable, glDebugMessageCallbackKHR, h, countRegistrations_append,
      countRegistrations]

/-- C6: the entry point has no error path: from every starting state it
surfaces no exception or status to the managed caller and emits no log entry,
and on a context without debug-extension support both GL calls are silent
no-ops, leaving the callback slot and the enable flag untouched. -/
theorem no_error_path (s : ProgState) :
    (enableES3DebugErrorLogging s).pendingException = s.pendingException
    ∧ (enableES3DebugErrorLogging s).log = s.log
    ∧ (s.debugExtSupported = false →
        (enableES3DebugErrorLogging s).debugCallbackSlot = s.debugCallbackSlot
        ∧ (enableES3DebugErrorLogging s).debugOutputEnabled = s.debugOutputEnabled) := by
  by_cases h : s.debugExtSupported <;>
    simp [enableES3DebugErrorLogging,
      Java_com_google_jetpackcamera_core_camera_effects_GLDebug_enableES3DebugErrorLogging,
      glEnable, glDebugMessageCallbackKHR, h]

/-- A fresh state on a context without KHR_debug support. -/
def initStateNoExt : ProgState :=
  { initState with debugExtSupported := false }

/-- Witness for C6 on a concrete context without debug-extension support. -/
theorem no_error_path_witness :
    (enableES3DebugErrorLogging initStateNoExt).pendingException
      = initStateNoExt.pendingException
    ∧ (enableES3DebugErrorLogging initStateNoExt).log = initStateNoExt.log
    ∧ (enableES3DebugErrorLogging initStateNoExt).debugCallbackSlot
        = initStateNoExt.debugCallbackSlot
    ∧ (enableES3DebugErrorLogging initStateNoExt).debugOutputEnabled
        = initStateNoExt.debugOutputEnabled := by
  have h := no_error_path initStateNoExt
  exact ⟨h.1, h.2.1, (h.2.2 rfl).1, (h.2.2 rfl).2⟩

/-- C7: the callback output depends only on the message type and the message
string: two invocations agreeing on those two arguments produce identical
log-sink output, whatever their source, id, severity, length and user-data
pointer. -/
theorem output_depends_only_on_type_and_message
    (source1 type1 i1 severity1 length1 source2 type2 i2 severity2 length2 : Nat)
    (message1 message2 : String) (userParam1 userParam2 : Ptr)
    (htype : type1 = type2) (hmessage : message1 = message2) :
    gl_debug_cb source1 type1 i1 severity1 length1 message1 userParam1
      = gl_debug_cb source2 type2 i2 severity2 length2 message2 userParam2 := by
  subst htype
  subst hmessage
  rfl

/-- Witness for C7: two invocations differing in source, id, severity, length
and user-data pointer, but agreeing on type and message, give equal output. -/
theorem output_depends_only_on_type_and_message_witness :
    gl_debug_cb 0 GL_DEBUG_TYPE_ERROR_KHR 1 0 5 "m" .null
      = gl_debug_cb 7 GL_DEBUG_TYPE_ERROR_KHR 9 3 0 "m" (.addr 4) :=
  output_depends_only_on_type_and_message 0 GL_DEBUG_TYPE_ERROR_KHR 1 0 5
    7 GL_DEBUG_TYPE_ERROR_KHR 9 3 0 "m" "m" .null (.addr 4) rfl rfl

/-- C8: once the fixed callback is installed, no operation of this code ever
clears the slot: after any sequence of entry-point invocations and driver
message deliveries, the debug-callback slot still holds `gl_debug_cb` with
the null user-data pointer. -/
theorem callback_never_uninstalled (s : ProgState) (ops : List Op)
    (h : s.debugCallbackSlot = some ⟨.gl_debug_cb, .null⟩) :
    (run s ops).debugCallbackSlot = some ⟨.gl_debug_cb, .null⟩ := by
  induction ops generalizing s with
  | nil => simpa [run] using h
  | cons op rest ih =>
      have hrun : run s (op :: rest) = run (step s op) rest := rfl
      rw [hrun]
      apply ih
      cases op with
      | install =>
          by_cases hs : s.debugExtSupported <;>
            simp [step, enableES3DebugErrorLogging,
              Java_com_google_jetpackcamera_core_camera_effects_GLDebug_enableES3DebugErrorLogging,
              glEnable, glDebugMessageCallbackKHR, hs, h]
      | driverMessage source type i severity length message =>
          by_cases he : s.debugOutputEnabled <;>
            simp [step, deliverMessage, he, h]

/-- Witness for C8: after installation on a fresh context, an extra install
and a delivered message leave the callback in the slot. -/
theorem callback_never_uninstalled_witness :
    (run (enableES3DebugErrorLogging initState)
        [.install, .driverMessage 0 GL_DEBUG_TYPE_ERROR_KHR 0 0 0 "x"]).debugCallbackSlot
      = some ⟨.gl_debug_cb, .null⟩ :=
  callback_never_uninstalled (enableES3DebugErrorLogging initState)
    [.install, .driverMessage 0 GL_DEBUG_TYPE_ERROR_KHR 0 0 0 "x"] (by decide)

/-- Shape of every log entry this program can emit: error priority, the fixed
tag, and text of the fixed form around some message string. -/
def wellFormedEntry (e : LogEntry) : Prop :=
  e.priority = ANDROID_LOG_ERROR ∧ e.tag = LOG_TAG
    ∧ ∃ m, e.text = "GL ERROR:\n " ++ m ++ "."

/-- Helper: one step preserves well-formedness of all log entries. -/
theorem step_preserves_wf (s : ProgState) (op : Op)
    (h : ∀ e ∈ s.log, wellFormedEntry e) :
    ∀ e ∈ (step s op).log, wellFormedEntry e := by
  cases op with
  | install =>
      intro e he
      rw [step, install_log_eq] at he
      exact h e he
  | driverMessage source type i severity length message =>
      intro e he
      rw [step] at he
      unfold deliverMessage at he
      by_cases hen : s.debugOutputEnabled
      · cases hslot : s.debugCallbackSlot with
        | none =>
            rw [hslot] at he
            simp only [hen, if_true] at he
            exact h e he
        | some reg =>
            rw [hslot] at he
            simp only [hen, if_true] at he
            simp only [List.mem_append] at he
            rcases he with he | he
            · exact h e he
            · unfold gl_debug_cb at he
              by_cases hty : type = GL_DEBUG_TYPE_ERROR_KHR
              · simp only [hty, if_true, List.mem_singleton] at he
                subst he
                exact ⟨rfl, rfl, message, rfl⟩
              · simp [hty] at he
      · simp only [hen, if_false] at he
        exact h e he

/-- C9: every log entry the program ever emits, over any operation sequence
from a fresh context, is at error priority, carries exactly the tag
"OpenGLDebugLib", and has text "GL ERROR:" followed by a newline, a space,
the message string and a trailing period; no other shape ever occurs. -/
theorem log_shape_invariant (ops : List Op) (e : LogEntry)
    (he : e ∈ (run initState ops).log) :
    e.priority = ANDROID_LOG_ERROR ∧ e.tag = LOG_TAG
      ∧ ∃ m, e.text = "GL ERROR:\n " ++ m ++ "." := by
  have hrun : ∀ (l : List Op) (s : ProgState), (∀ x ∈ s.log, wellFormedEntry x) →
      ∀ x ∈ (run s l).log, wellFormedEntry x := by
    intro l
    induction l with
    | nil => intro s hs; simpa [run] using hs
    | cons op rest ih =>
        intro s hs
        have : run s (op :: rest) = run (step s op) rest := rfl
        rw [this]
        exact ih (step s op) (step_preserves_wf s op hs)
  exact hrun ops initState (by intro x hx; simp [initState] at hx) e he

/-- Witness for C9: a concrete emitted entry has the invariant shape. -/
theorem log_shape_invariant_witness :
    (⟨6, "OpenGLDebugLib", "GL ERROR:\n x."⟩ : LogEntry).priority = ANDROID_LOG_ERROR
    ∧ (⟨6, "OpenGLDebugLib", "GL ERROR:\n x."⟩ : LogEntry).tag = LOG_TAG
    ∧ ∃ m, (⟨6, "OpenGLDebugLib", "GL ERROR:\n x."⟩ : LogEntry).text
        = "GL ERROR:\n " ++ m ++ "." :=
  log_shape_invariant [.install, .driverMessage 0 GL_DEBUG_TYPE_ERROR_KHR 0 0 0 "x"]
    ⟨6, "OpenGLDebugLib", "GL ERROR:\n x."⟩ (by decide)

/-- C10: delivering a debug message to the callback, for every combination of
arguments, leaves the callback slot, the enable flag, the extension-support
status, the remaining GL state, the program variables, the exception channel
and the GL call trace unchanged; its only possible effect is appending
entries to the log sink. -/
theorem callback_frame (s : ProgState) (source type i severity length : Nat)
    (message : String) :
    (deliverMessage s source type i severity length message).debugCallbackSlot
      = s.debugCallbackSlot
    ∧ (deliverMessage s source type i severity length message).debugOutputEnabled
      = s.debugOutputEnabled
    ∧ (deliverMessage s source type i severity length message).debugExtSupported
      = s.debugExtSupported
    ∧ (deliverMessage s source type i severity length message).otherGLState
      = s.otherGLState
    ∧ (deliverMessage s source type i severity length message).programVars
      = s.programVars
    ∧ (deliverMessage s source type i severity length message).pendingException
      = s.pendingException
    ∧ (deliverMessage s source type i severity length message).glCallTrace
      = s.glCallTrace
    ∧ ∃ out, (deliverMessage s source type i severity length message).log
        = s.log ++ out := by
  unfold deliverMessage
  by_cases he : s.debugOutputEnabled
  · cases hslot : s.debugCallbackSlot with
    | none => simp [he, hslot]
    | some reg =>
        refine ⟨?_, ?_, ?_, ?_, ?_, ?_, ?_, ?_⟩ <;> simp [he, hslot]
  · simp [he]

end OpenGLDebug
